import Mathlib

/-!
Verification of the clara-mcp-server tool dispatcher (Rust) against its
natural-language specification.  The Rust source is shallowly embedded:
pure computations become Lean functions, the filesystem and outbound HTTP
world become explicit state / environment parameters, and
Result<String, String> becomes Except String String.
-/

namespace ClaraMcp

/-- Outcome of a tool-group operation, mirroring Rust Result<String, String>:
Except.ok is the Ok arm, Except.error the Err arm. -/
abbrev ToolResult := Except String String

/-- Bool-valued substring test: pat occurs contiguously inside s. -/
def strContains (s pat : String) : Bool := decide (pat.data <:+: s.data)

theorem strContains_append_left (p q : String) : strContains (p ++ q) p = true := by
  have h : (p ++ q).data = p.data ++ q.data := by
    cases p; cases q; rfl
  simp only [strContains, h, decide_eq_true_eq]
  exact ⟨[], q.data, by simp⟩

/-! ## Character classification and filename sanitization
(src/clara-mcp-server/src/tools/local_files.rs, fn sanitize_filename) -/

/-- Models char::is_alphanumeric from the Rust standard library, which tests
the Unicode Alphabetic and Numeric properties (not just ASCII).  The model is
exact on the ASCII and Latin-1 ranges (all code points up to U+00FF); code
points above U+00FF are classified as non-alphanumeric, a restriction of the
model domain that none of the theorems below depend on. -/
def rustIsAlphanumeric (c : Char) : Bool :=
  (48 ≤ c.toNat && c.toNat ≤ 57) ||
  (65 ≤ c.toNat && c.toNat ≤ 90) ||
  (97 ≤ c.toNat && c.toNat ≤ 122) ||
  c.toNat == 0xAA || c.toNat == 0xB5 || c.toNat == 0xBA ||
  c.toNat == 0xB2 || c.toNat == 0xB3 || c.toNat == 0xB9 ||
  (0xBC ≤ c.toNat && c.toNat ≤ 0xBE) ||
  (0xC0 ≤ c.toNat && c.toNat ≤ 0xFF && c.toNat != 0xD7 && c.toNat != 0xF7)

/-- The ASCII character set [A-Za-z0-9._-] named by the specification. -/
def asciiFileChar (c : Char) : Bool :=
  (48 ≤ c.toNat && c.toNat ≤ 57) ||
  (65 ≤ c.toNat && c.toNat ≤ 90) ||
  (97 ≤ c.toNat && c.toNat ≤ 122) ||
  c == '.' || c == '_' || c == '-'

/-- fn sanitize_filename: map every character that is not alphanumeric and not
one of . - _ to an underscore, then strip all leading dots. -/
def sanitize_filename (name : String) : String :=
  let mapped := name.data.map (fun c =>
    if rustIsAlphanumeric c || c == '.' || c == '-' || c == '_' then c else '_')
  String.mk (mapped.dropWhile (fun c => c == '.'))

/-- Helper: the head of dropWhile never satisfies the dropped predicate. -/
theorem head_dropWhile_false {p : Char → Bool} :
    ∀ (l : List Char) (c : Char), (l.dropWhile p).head? = some c → p c = false := by
  intro l
  induction l with
  | nil => intro c h; simp [List.dropWhile] at h
  | cons a t ih =>
    intro c h
    by_cases hp : p a
    · rw [List.dropWhile_cons_of_pos hp] at h
      exact ih c h
    · rw [List.dropWhile_cons_of_neg hp] at h
      simp at h
      subst h
      exact Bool.of_not_eq_true hp

/-- Helper: membership in dropWhile implies membership in the original list. -/
theorem mem_of_mem_dropWhile {p : Char → Bool} {c : Char} :
    ∀ {l : List Char}, c ∈ l.dropWhile p → c ∈ l := by
  intro l h
  exact (List.dropWhile_sublist p (l := l)).mem h

/-! ## Claude Code tools
(src/clara-mcp-server/src/tools/claude_code.rs) -/

/-- A spawned subprocess invocation as built by std::process::Command:
program, argument list, and optional current directory. -/
structure SpawnedCommand where
  program : String
  args : List String
  currentDir : Option String
deriving DecidableEq

/-- The command built by ClaudeCodeTools::execute: program "claude", args
--print then the task (then --max-turns when CLAUDE_CODE_MAX_TURNS is set),
current directory = the workdir argument when supplied, else the stored
workdir (workdir.or_else reading the RwLock). -/
def ClaudeCodeTools.execute_command (task : String) (argWorkdir storedWorkdir : Option String)
    (maxTurnsEnv : Option String) : SpawnedCommand :=
  let dir := match argWorkdir with
    | some d => some d
    | none => storedWorkdir
  { program := "claude"
    args := ["--print", task] ++
      (match maxTurnsEnv with
       | some turns => ["--max-turns", turns]
       | none => [])
    currentDir := dir }

/-- Captured output of a finished subprocess (std::process::Output):
success of the exit status, stdout and stderr decoded lossily. -/
structure ProcessOutput where
  success : Bool
  stdout : String
  stderr : String

/-- Result mapping of ClaudeCodeTools::execute over the subprocess outcome:
spawn failure and non-zero exit both become the Err arm. -/
def ClaudeCodeTools.execute_result (subprocess : Except String ProcessOutput) : ToolResult :=
  match subprocess with
  | .ok o =>
      if o.success then .ok o.stdout
      else .error ("Claude Code failed: " ++ o.stdout ++ "\n" ++ o.stderr)
  | .error e => .error ("Failed to run Claude Code: " ++ e)

/-- ClaudeCodeTools::set_workdir over an explicit filesystem (the list of
existing paths) and the stored workdir value: a missing path is rejected
before the stored value is touched. -/
def ClaudeCodeTools.set_workdir (existingPaths : List String) (path : String)
    (stored : Option String) : ToolResult × Option String :=
  if path ∈ existingPaths then
    (.ok ("Working directory set to: " ++ path), some path)
  else
    (.error ("Path does not exist: " ++ path), stored)

/-! ## Local file storage
(src/clara-mcp-server/src/tools/local_files.rs) -/

/-- Filesystem state: the set of existing directories and the stored files,
both keyed by their path split into components. -/
structure FsState where
  dirs : List (List String)
  files : List (List String × String)
deriving DecidableEq

/-- fs::create_dir_all: records the directory and every ancestor. -/
def createDirAll (fs : FsState) (p : List String) : FsState :=
  { fs with dirs := p.inits.filter (fun q => !q.isEmpty) ++ fs.dirs }

/-- Content of the file stored at path p, when present. -/
def lookupFile (files : List (List String × String)) (p : List String) : Option String :=
  (files.find? (fun e => decide (e.1 = p))).map (fun e => e.2)

/-- fs::write: create or truncate the file at path p with content c. -/
def writeFileEntry (files : List (List String × String)) (p : List String) (c : String) :
    List (List String × String) :=
  (p, c) :: files.filter (fun e => !decide (e.1 = p))

/-- fs::remove_file at path p. -/
def removeFileEntry (files : List (List String × String)) (p : List String) :
    List (List String × String) :=
  files.filter (fun e => !decide (e.1 = p))

/-- LocalFilesTools::user_dir: the per-user directory base/sanitized-id,
created (with ancestors) as a side effect. -/
def user_dir (base : List String) (fs : FsState) (userId : String) :
    List String × FsState :=
  let safeId := sanitize_filename userId
  let path := base ++ [safeId]
  (path, createDirAll fs path)

/-- LocalFilesTools::save: write content under the per-user directory with the
sanitized filename; the reported size is the content's byte length. -/
def LocalFilesTools.save (base : List String) (fs : FsState)
    (filename content userId : String) : ToolResult × FsState :=
  let safeName := sanitize_filename filename
  let (udir, fs1) := user_dir base fs userId
  let path := udir ++ [safeName]
  let fs2 := { fs1 with files := writeFileEntry fs1.files path content }
  (.ok ("Saved " ++ safeName ++ " (" ++ toString content.utf8ByteSize ++ " bytes)"), fs2)

/-- A path is a direct (depth-one) entry of dir: returns its filename. -/
def entryNameIn (dir p : List String) : Option String :=
  if p.take dir.length = dir then
    match p.drop dir.length with
    | [name] => some name
    | _ => none
  else none

/-- LocalFilesTools::list: the files directly inside the per-user directory,
each rendered as a bullet with its byte size.  (WalkDir's on-disk traversal
order is modelled as the order of the stored file entries.) -/
def LocalFilesTools.list (base : List String) (fs : FsState) (userId : String) :
    ToolResult × FsState :=
  let (udir, fs1) := user_dir base fs userId
  let files := fs1.files.filterMap (fun e =>
    (entryNameIn udir e.1).map (fun name =>
      "- " ++ name ++ " (" ++ toString e.2.utf8ByteSize ++ " bytes)"))
  if files.isEmpty then (.ok "No files saved.", fs1)
  else (.ok ("**Saved Files:**\n" ++ String.intercalate "\n" files), fs1)

/-- LocalFilesTools::read: error when the sanitized per-user path has no file,
else the stored content. -/
def LocalFilesTools.read (base : List String) (fs : FsState)
    (filename userId : String) : ToolResult × FsState :=
  let safeName := sanitize_filename filename
  let (udir, fs1) := user_dir base fs userId
  let path := udir ++ [safeName]
  match lookupFile fs1.files path with
  | none => (.error ("File not found: " ++ safeName), fs1)
  | some c => (.ok c, fs1)

/-- LocalFilesTools::delete: error when the sanitized per-user path has no
file, else remove it. -/
def LocalFilesTools.delete (base : List String) (fs : FsState)
    (filename userId : String) : ToolResult × FsState :=
  let safeName := sanitize_filename filename
  let (udir, fs1) := user_dir base fs userId
  let path := udir ++ [safeName]
  match lookupFile fs1.files path with
  | none => (.error ("File not found: " ++ safeName), fs1)
  | some _ => (.ok ("Deleted: " ++ safeName),
               { fs1 with files := removeFileEntry fs1.files path })

/-- A file named filename is observable for userId: its per-user path holds
content.  This is exactly the condition under which LocalFilesTools::list
shows the name and LocalFilesTools::read returns content. -/
def fileVisible (base : List String) (fs : FsState) (userId filename : String) : Bool :=
  (lookupFile fs.files
    (base ++ [sanitize_filename userId, sanitize_filename filename])).isSome

/-! ## Outbound HTTP model -/

/-- A JSON value, mirroring serde_json::Value (numbers restricted to the
integers used by this development). -/
inductive Json where
  | null : Json
  | bool : Bool → Json
  | num : Int → Json
  | str : String → Json
  | arr : List Json → Json
  | obj : List (String × Json) → Json

/-- serde_json::Value::get on an object; None on every other variant. -/
def Json.get : Json → String → Option Json
  | .obj fields, k => (fields.find? (fun p => p.1 == k)).map (fun p => p.2)
  | _, _ => none

/-- Value::as_str. -/
def Json.asStr : Json → Option String
  | .str s => some s
  | _ => none

/-- data.get(k).and_then(as_str), the dominant access pattern in the source. -/
def Json.getStr (j : Json) (k : String) : Option String :=
  (j.get k).bind Json.asStr

mutual

/-- The Display rendering of a serde_json::Value (string escaping not
modelled; no claim exercises it on strings needing escapes). -/
def Json.display : Json → String
  | .null => "null"
  | .bool b => if b then "true" else "false"
  | .num n => toString n
  | .str s => "\"" ++ s ++ "\""
  | .arr xs => "[" ++ Json.displayItems xs ++ "]"
  | .obj fs => "\x7b" ++ Json.displayFields fs ++ "\x7d"

def Json.displayItems : List Json → String
  | [] => ""
  | [x] => Json.display x
  | x :: xs => Json.display x ++ "," ++ Json.displayItems xs

def Json.displayFields : List (String × Json) → String
  | [] => ""
  | [(k, v)] => "\"" ++ k ++ "\":" ++ Json.display v
  | (k, v) :: fs => "\"" ++ k ++ "\":" ++ Json.display v ++ "," ++ Json.displayFields fs

end

/-- An outbound HTTP request (method and URL; headers and body are not
inspected by any claim). -/
structure HttpRequest where
  method : String
  url : String
deriving DecidableEq

/-- A completed HTTP response: status code, body text, and the outcome of
decoding the body as JSON (the Err arm carries serde's error message). -/
structure HttpResponse where
  status : Nat
  body : String
  json : Except String Json

/-- reqwest StatusCode::is_success: the 2xx range. -/
def isSuccessStatus (s : Nat) : Bool := 200 ≤ s && s < 300

/-- The Display rendering of a status code in error messages (reqwest also
appends the canonical reason phrase; claims only need the code). -/
def statusDisplay (s : Nat) : String := toString s

/-! ## The MCP dispatch envelope
(src/clara-mcp-server/src/main.rs, the tool methods of ClaraServer) -/

/-- rmcp CallToolResult: an error flag plus text content blocks. -/
structure CallToolResult where
  isError : Bool
  content : List String
deriving DecidableEq

def CallToolResult.success (c : List String) : CallToolResult :=
  { isError := false, content := c }

def CallToolResult.failure (c : List String) : CallToolResult :=
  { isError := true, content := c }

/-- rmcp ErrorData: the protocol-level error a handler could return instead
of a envelope.  No tool method of ClaraServer ever constructs one. -/
structure McpError where
  message : String

/-- The match every ClaraServer tool method performs on its tool group's
Result<String, String>: both arms are wrapped as Ok(CallToolResult). -/
def wrapToolOutcome (r : ToolResult) : Except McpError CallToolResult :=
  match r with
  | .ok text => .ok (CallToolResult.success [text])
  | .error e => .ok (CallToolResult.failure [e])

/-- The envelope value wrapToolOutcome always returns. -/
def toEnvelope (r : ToolResult) : CallToolResult :=
  match r with
  | .ok text => CallToolResult.success [text]
  | .error e => CallToolResult.failure [e]

theorem wrapToolOutcome_eq (r : ToolResult) : wrapToolOutcome r = .ok (toEnvelope r) := by
  cases r <;> rfl

/-! ## Discord tools
(src/clara-mcp-server/src/tools/discord.rs) -/

/-- DiscordTools::send_message over the response of the outbound POST to
the channel-messages endpoint. -/
def DiscordTools.send_message (botToken : Option String) (channelId message : String)
    (resp : Except String HttpResponse) : ToolResult :=
  match botToken with
  | none => .error "DISCORD_BOT_TOKEN not set"
  | some _ =>
    match resp with
    | .error e => .error ("Request failed: " ++ e)
    | .ok r =>
      if isSuccessStatus r.status then
        .ok ("Message sent to channel " ++ channelId)
      else
        .error ("Discord API error " ++ statusDisplay r.status ++ ": " ++ r.body)

/-- ClaraServer::claude_code: invoke the group operation and wrap its result. -/
def ClaraServer.claude_code (subprocess : Except String ProcessOutput) :
    Except McpError CallToolResult :=
  wrapToolOutcome (ClaudeCodeTools.execute_result subprocess)

/-- ClaraServer::send_message_to_channel: invoke the group operation and wrap
its result. -/
def ClaraServer.send_message_to_channel (botToken : Option String)
    (channelId message : String) (resp : Except String HttpResponse) :
    Except McpError CallToolResult :=
  wrapToolOutcome (DiscordTools.send_message botToken channelId message resp)

/-! ## ORS notes tools
(src/clara-mcp-server/src/tools/ors_notes.rs) -/

/-- OrsNotesTools::list response handling: a non-success status is reported
as the Ok arm with a fixed text, not as an error. -/
def OrsNotesTools.list (resp : Except String HttpResponse) : ToolResult :=
  match resp with
  | .error e => .error ("Failed to list notes: " ++ e)
  | .ok r =>
    if isSuccessStatus r.status then .ok r.body
    else .ok "No active notes found."

/-- OrsNotesTools::add response handling. -/
def OrsNotesTools.add (resp : Except String HttpResponse) : ToolResult :=
  match resp with
  | .error e => .error ("Failed to add note: " ++ e)
  | .ok r =>
    if isSuccessStatus r.status then .ok "Note added successfully."
    else .error ("Failed to add note: " ++ r.body)

/-- OrsNotesTools::archive response handling. -/
def OrsNotesTools.archive (resp : Except String HttpResponse) : ToolResult :=
  match resp with
  | .error e => .error ("Failed to archive note: " ++ e)
  | .ok r =>
    if isSuccessStatus r.status then .ok "Note archived."
    else .error ("Failed to archive note: " ++ r.body)

/-! ## Sandbox tools
(src/clara-mcp-server/src/tools/sandbox.rs) -/

/-- Decode of the typed SandboxResponse struct (success: Bool required,
output and error: optional strings); None models a serde decode failure. -/
def decodeSandboxResponse (j : Json) : Option (Bool × Option String × Option String) :=
  let optStr : Option Json → Option (Option String) := fun v =>
    match v with
    | none => some none
    | some .null => some none
    | some (.str s) => some (some s)
    | some _ => none
  match j.get "success" with
  | some (.bool b) =>
    match optStr (j.get "output"), optStr (j.get "error") with
    | some o, some e => some (b, o, e)
    | _, _ => none
  | _ => none

/-- SandboxTools::call_sandbox: shared response handling of every sandbox
operation. -/
def SandboxTools.call_sandbox (apiUrl : Option String)
    (resp : Except String HttpResponse) : ToolResult :=
  match apiUrl with
  | none => .error "SANDBOX_API_URL not configured"
  | some _ =>
    match resp with
    | .error e => .error ("Sandbox request failed: " ++ e)
    | .ok r =>
      if isSuccessStatus r.status then
        match r.json with
        | .error e => .error ("Failed to parse response: " ++ e)
        | .ok j =>
          match decodeSandboxResponse j with
          | none => .error "Failed to parse response: invalid SandboxResponse"
          | some (ok, output, err) =>
            if ok then .ok (output.getD "")
            else .error (err.getD "Unknown error")
      else
        .error ("Sandbox API error " ++ statusDisplay r.status ++ ": " ++ r.body)

/-! ## Google Workspace tools
(src/clara-mcp-server/src/tools/google.rs)

Each operation is modelled together with the trace of outbound requests it
makes: the token-broker call first, then (only if the token was obtained)
the single Google API call. -/

/-- Percent-encoding as performed by the urlencoding crate: RFC 3986
unreserved bytes kept, every other UTF-8 byte encoded as %XX uppercase. -/
def urlencode (s : String) : String :=
  let unreserved : Char → Bool := fun c =>
    (48 ≤ c.toNat && c.toNat ≤ 57) ||
    (65 ≤ c.toNat && c.toNat ≤ 90) ||
    (97 ≤ c.toNat && c.toNat ≤ 122) ||
    c == '-' || c == '_' || c == '.' || c == '~'
  let hex : Nat → Char := fun n =>
    if n < 10 then Char.ofNat (48 + n) else Char.ofNat (55 + n)
  String.join (s.toUTF8.toList.map (fun b =>
    let n := b.toNat
    if n < 128 && unreserved (Char.ofNat n) then String.singleton (Char.ofNat n)
    else "%" ++ String.singleton (hex (n / 16)) ++ String.singleton (hex (n % 16))))

/-- The token-broker URL used by GoogleTools::get_token. -/
def tokenUrl (base userId : String) : String :=
  base ++ "/oauth/google/token/" ++ userId

/-- GoogleTools::get_token: GET the token-broker endpoint; a non-success
status yields the fixed not-connected message; a success decodes the
TokenResponse struct (field access_token). -/
def GoogleTools.get_token (base userId : String)
    (tokenResp : Except String HttpResponse) : Except String String × List HttpRequest :=
  let reqs := [HttpRequest.mk "GET" (tokenUrl base userId)]
  match tokenResp with
  | .error e => (.error ("Failed to get token: " ++ e), reqs)
  | .ok r =>
    if isSuccessStatus r.status then
      match r.json with
      | .error e => (.error ("Failed to parse token: " ++ e), reqs)
      | .ok j =>
        match j.getStr "access_token" with
        | some tok => (.ok tok, reqs)
        | none => (.error "Failed to parse token: missing access_token", reqs)
    else
      (.error "Google account not connected. Use google_connect first.", reqs)

/-- GoogleTools::calendar_list_events: token first, then GET the events URL
and return the body whatever the status. -/
def GoogleTools.calendar_list_events (base userId : String)
    (calendarId : Option String) (maxResults : Option Int) (nowRfc3339 : String)
    (tokenResp apiResp : Except String HttpResponse) : ToolResult × List HttpRequest :=
  match GoogleTools.get_token base userId tokenResp with
  | (.error e, reqs) => (.error e, reqs)
  | (.ok _, reqs) =>
    let calId := calendarId.getD "primary"
    let maxR := maxResults.getD 10
    let url := "https://www.googleapis.com/calendar/v3/calendars/" ++ calId ++
      "/events?maxResults=" ++ toString maxR ++
      "&singleEvents=true&orderBy=startTime&timeMin=" ++ nowRfc3339
    match apiResp with
    | .error e => (.error ("Calendar API failed: " ++ e), reqs ++ [HttpRequest.mk "GET" url])
    | .ok r => (.ok r.body, reqs ++ [HttpRequest.mk "GET" url])

/-- GoogleTools::calendar_create_event: token first, then POST the event and
branch on the status. -/
def GoogleTools.calendar_create_event (base userId : String)
    (title startTime endTime : String) (description : Option String)
    (tokenResp apiResp : Except String HttpResponse) : ToolResult × List HttpRequest :=
  match GoogleTools.get_token base userId tokenResp with
  | (.error e, reqs) => (.error e, reqs)
  | (.ok _, reqs) =>
    let url := "https://www.googleapis.com/calendar/v3/calendars/primary/events"
    match apiResp with
    | .error e => (.error ("Calendar API failed: " ++ e), reqs ++ [HttpRequest.mk "POST" url])
    | .ok r =>
      if isSuccessStatus r.status then
        (.ok ("Created event: " ++ title), reqs ++ [HttpRequest.mk "POST" url])
      else
        (.error ("Failed to create event: " ++ r.body), reqs ++ [HttpRequest.mk "POST" url])

/-- GoogleTools::sheets_read: token first, then GET the values URL and return
the body whatever the status. -/
def GoogleTools.sheets_read (base userId spreadsheetId range : String)
    (tokenResp apiResp : Except String HttpResponse) : ToolResult × List HttpRequest :=
  match GoogleTools.get_token base userId tokenResp with
  | (.error e, reqs) => (.error e, reqs)
  | (.ok _, reqs) =>
    let url := "https://sheets.googleapis.com/v4/spreadsheets/" ++ spreadsheetId ++
      "/values/" ++ range
    match apiResp with
    | .error e => (.error ("Sheets API failed: " ++ e), reqs ++ [HttpRequest.mk "GET" url])
    | .ok r => (.ok r.body, reqs ++ [HttpRequest.mk "GET" url])

/-- GoogleTools::sheets_write: token first, then parse the values JSON
(valuesParse models serde_json::from_str on the values argument), then PUT
and branch on the status. -/
def GoogleTools.sheets_write (base userId spreadsheetId range : String)
    (valuesParse : Except String Json)
    (tokenResp apiResp : Except String HttpResponse) : ToolResult × List HttpRequest :=
  match GoogleTools.get_token base userId tokenResp with
  | (.error e, reqs) => (.error e, reqs)
  | (.ok _, reqs) =>
    match valuesParse with
    | .error e => (.error ("Invalid JSON values: " ++ e), reqs)
    | .ok _ =>
      let url := "https://sheets.googleapis.com/v4/spreadsheets/" ++ spreadsheetId ++
        "/values/" ++ range ++ "?valueInputOption=USER_ENTERED"
      match apiResp with
      | .error e => (.error ("Sheets API failed: " ++ e), reqs ++ [HttpRequest.mk "PUT" url])
      | .ok r =>
        if isSuccessStatus r.status then
          (.ok ("Wrote data to " ++ range), reqs ++ [HttpRequest.mk "PUT" url])
        else
          (.error ("Failed to write: " ++ r.body), reqs ++ [HttpRequest.mk "PUT" url])

/-- GoogleTools::drive_list: token first, then GET the files URL (query
urlencoded when present) and return the body whatever the status. -/
def GoogleTools.drive_list (base userId : String) (query : Option String)
    (tokenResp apiResp : Except String HttpResponse) : ToolResult × List HttpRequest :=
  match GoogleTools.get_token base userId tokenResp with
  | (.error e, reqs) => (.error e, reqs)
  | (.ok _, reqs) =>
    let url0 := "https://www.googleapis.com/drive/v3/files?pageSize=20"
    let url := match query with
      | some q => url0 ++ "&q=" ++ urlencode q
      | none => url0
    match apiResp with
    | .error e => (.error ("Drive API failed: " ++ e), reqs ++ [HttpRequest.mk "GET" url])
    | .ok r => (.ok r.body, reqs ++ [HttpRequest.mk "GET" url])

/-- GoogleTools::drive_download: token first, then GET the media URL and
return the body whatever the status. -/
def GoogleTools.drive_download (base userId fileId : String)
    (tokenResp apiResp : Except String HttpResponse) : ToolResult × List HttpRequest :=
  match GoogleTools.get_token base userId tokenResp with
  | (.error e, reqs) => (.error e, reqs)
  | (.ok _, reqs) =>
    let url := "https://www.googleapis.com/drive/v3/files/" ++ fileId ++ "?alt=media"
    match apiResp with
    | .error e => (.error ("Drive API failed: " ++ e), reqs ++ [HttpRequest.mk "GET" url])
    | .ok r => (.ok r.body, reqs ++ [HttpRequest.mk "GET" url])

/-! ## Backup tools
(src/clara-mcp-server/src/tools/backup.rs — present in the tree but never
declared in tools/mod.rs nor registered on ClaraServer) -/

/-- The query string built by BackupTools::backup_now from its optional
destination and databases arguments. -/
def BackupTools.backup_now_query (destination : Option String)
    (databases : Option (List String)) : String :=
  let params :=
    (match destination with
     | some dest => ["destination=" ++ dest]
     | none => []) ++
    (match databases with
     | some dbs => ["databases=" ++ String.intercalate "," dbs]
     | none => [])
  if params.isEmpty then "" else "?" ++ String.intercalate "&" params

/-- The success-body formatting of BackupTools::backup_now. -/
def BackupTools.backup_now_format (data : Json) : String :=
  let status := (data.getStr "status").getD "unknown"
  let message := (data.getStr "message").getD ""
  let backupId := data.getStr "backup_id"
  let r1 := "Backup " ++ status ++ "\n"
  let r2 := if message.isEmpty then r1 else r1 ++ "Message: " ++ message ++ "\n"
  let r3 := match backupId with
    | some id => r2 ++ "Backup ID: " ++ id ++ "\n"
    | none => r2
  match data.get "details" with
  | some details =>
    let a := match details.get "clara" with
      | some clara => "\nClara DB: " ++ clara.display
      | none => ""
    let b := match details.get "mem0" with
      | some mem0 => "\nMem0 DB: " ++ mem0.display
      | none => ""
    r3 ++ a ++ b
  | none => r3

/-- BackupTools::backup_now: one POST to base/api/backup/now with the built
query string; non-success becomes the Err arm, a success body that fails to
parse still reports the trigger as Ok. -/
def BackupTools.backup_now (base : String) (destination : Option String)
    (databases : Option (List String)) (resp : Except String HttpResponse) :
    ToolResult × List HttpRequest :=
  let url := base ++ "/api/backup/now" ++ BackupTools.backup_now_query destination databases
  let reqs := [HttpRequest.mk "POST" url]
  match resp with
  | .error e => (.error ("Failed to connect to backup service: " ++ e), reqs)
  | .ok r =>
    if isSuccessStatus r.status then
      match r.json with
      | .ok data => (.ok (BackupTools.backup_now_format data), reqs)
      | .error e => (.ok ("Backup triggered (response parse error: " ++ e ++ ")"), reqs)
    else
      (.error ("Backup failed: " ++ statusDisplay r.status ++ " - " ++ r.body), reqs)

/-! ## The tool registry
(src/clara-mcp-server/src/main.rs; rmcp's tool_router registers one entry per
tool-attributed method, named after the method) -/

/-- The operation names registered on ClaraServer, in declaration order. -/
def registeredToolNames : List String :=
  ["claude_code", "claude_code_get_workdir", "claude_code_set_workdir",
   "claude_code_status",
   "send_message_to_channel",
   "execute_python", "install_package", "sandbox_read_file", "sandbox_write_file",
   "sandbox_list_files", "run_shell",
   "save_to_local", "list_local_files", "read_local_file", "delete_local_file",
   "download_from_sandbox", "upload_to_sandbox",
   "google_calendar_list_events", "google_calendar_create_event",
   "google_sheets_read", "google_sheets_write",
   "google_drive_list", "google_drive_download",
   "ors_list_notes", "ors_add_note", "ors_archive_note"]

/-- The modules declared in src/clara-mcp-server/src/tools/mod.rs. -/
def declaredToolModules : List String :=
  ["claude_code", "discord", "google", "local_files", "ors_notes", "sandbox"]

/-- Registry lookup: exact, case-sensitive membership. -/
def registryLookup (name : String) : Bool :=
  decide (name ∈ registeredToolNames)

/-! ## HTTP client construction
(reqwest::Client::new() call sites, tracked by an allocation counter) -/

/-- An HTTP client instance, identified by its allocation index. -/
structure HttpClient where
  id : Nat
deriving DecidableEq

/-- reqwest::Client::new(): allocates a fresh client instance. -/
def newClient (n : Nat) : HttpClient × Nat := (HttpClient.mk n, n + 1)

/-- DiscordTools::new creates its own client. -/
def DiscordTools.new (n : Nat) : HttpClient × Nat := newClient n

/-- GoogleTools::new creates its own client. -/
def GoogleTools.new (n : Nat) : HttpClient × Nat := newClient n

/-- OrsNotesTools::new creates its own client. -/
def OrsNotesTools.new (n : Nat) : HttpClient × Nat := newClient n

/-- SandboxTools::new creates its own client. -/
def SandboxTools.new (n : Nat) : HttpClient × Nat := newClient n

/-- The clients held by the tool groups of one ClaraServer. -/
structure ClaraServerClients where
  discord : HttpClient
  sandbox : HttpClient
  google : HttpClient
  orsNotes : HttpClient
deriving DecidableEq

/-- The client allocations of ClaraServer::new, in construction order:
ClaudeCodeTools::new and LocalFilesTools::new create no client; DiscordTools,
SandboxTools, GoogleTools and OrsNotesTools each create one. -/
def ClaraServer.newClients (n : Nat) : ClaraServerClients × Nat :=
  let (cDiscord, n1) := DiscordTools.new n
  let (cSandbox, n2) := SandboxTools.new n1
  let (cGoogle, n3) := GoogleTools.new n2
  let (cOrs, n4) := OrsNotesTools.new n3
  (ClaraServerClients.mk cDiscord cSandbox cGoogle cOrs, n4)

/-- The client allocation performed inside one call of
LocalFilesTools::download_from_sandbox, whose body constructs a fresh
SandboxTools (and hence a fresh client) per request.
LocalFilesTools::upload_to_sandbox does the same. -/
def LocalFilesTools.download_from_sandbox_clients (n : Nat) : HttpClient × Nat :=
  SandboxTools.new n

/-! ## Helper lemmas -/

theorem str_append_empty (s : String) : s ++ "" = s := by
  cases s with
  | mk data => show String.mk (data ++ []) = String.mk data; simp

theorem str_append_assoc (a b c : String) : a ++ b ++ c = a ++ (b ++ c) := by
  cases a; cases b; cases c
  show String.mk _ = String.mk _
  simp

/-- Two depth-two paths under the same base with distinct first components
are distinct. -/
theorem append_pair_ne (base : List String) (x y f g : String) (hxy : x ≠ y) :
    base ++ [x, f] ≠ base ++ [y, g] := by
  intro h
  have h2 : [x, f] = [y, g] := List.append_cancel_left h
  exact hxy (by injection h2)

/-- find? over a filter that only removes entries keyed p, queried at q ≠ p,
agrees with find? over the original list. -/
theorem find_filter_ne (q p : List String) (hqp : q ≠ p) :
    ∀ files : List (List String × String),
      (files.filter (fun e => !decide (e.1 = p))).find? (fun e => decide (e.1 = q))
        = files.find? (fun e => decide (e.1 = q)) := by
  intro files
  induction files with
  | nil => rfl
  | cons a t ih =>
    by_cases ha : a.1 = p
    · have haq : ¬ a.1 = q := by rw [ha]; exact fun hh => hqp hh.symm
      simp [List.filter_cons, List.find?_cons, ha, haq, ih, Ne.symm hqp]
    · by_cases haq : a.1 = q
      · simp [List.filter_cons, List.find?_cons, ha, haq, hqp]
      · simp [List.filter_cons, List.find?_cons, ha, haq, ih, hqp]

/-- lookupFile after a write at a different path is unchanged. -/
theorem lookupFile_write_ne (files : List (List String × String))
    (p q : List String) (c : String) (hqp : q ≠ p) :
    lookupFile (writeFileEntry files p c) q = lookupFile files q := by
  unfold lookupFile writeFileEntry
  have hd : decide ((p, c).1 = q) = false := decide_eq_false (fun hh => hqp hh.symm)
  rw [List.find?_cons, hd]
  show Option.map (fun e => e.2)
      ((files.filter (fun e => !decide (e.1 = p))).find? (fun e => decide (e.1 = q)))
    = Option.map (fun e => e.2) (files.find? (fun e => decide (e.1 = q)))
  rw [find_filter_ne q p hqp files]

/-- filterMap through a filter whose removed elements are mapped to none. -/
theorem filterMap_filter_of_none {α β : Type} (f : α → Option β) (g : α → Bool)
    (h : ∀ e, g e = false → f e = none) :
    ∀ l : List α, (l.filter g).filterMap f = l.filterMap f := by
  intro l
  induction l with
  | nil => rfl
  | cons a t ih =>
    by_cases hg : g a = true
    · rw [List.filter_cons_of_pos hg, List.filterMap_cons, List.filterMap_cons, ih]
    · have hg2 : g a = false := by simpa using hg
      rw [List.filter_cons_of_neg (by simp [hg2]), ih, List.filterMap_cons,
        h a hg2]

/-- A depth-two path under user x is not a depth-one entry of user y's
directory when x ≠ y. -/
theorem entryNameIn_other_user (base : List String) (x y f : String) (hxy : x ≠ y) :
    entryNameIn (base ++ [y]) (base ++ [x, f]) = none := by
  unfold entryNameIn
  have hlen : (base ++ [y]).length = base.length + 1 := by simp
  have htake : (base ++ [x, f]).take (base ++ [y]).length = base ++ [x] := by
    rw [hlen, List.take_append_eq_append_take]
    have h1 : base.take (base.length + 1) = base := List.take_of_length_le (Nat.le_succ _)
    have h2 : base.length + 1 - base.length = 1 := by omega
    rw [h1, h2]
    rfl
  have hne : (base ++ [x, f]).take (base ++ [y]).length ≠ base ++ [y] := by
    rw [htake]
    intro hh
    have h2 : [x] = [y] := List.append_cancel_left hh
    exact hxy (by injection h2)
  rw [if_neg hne]

/-! ## Claim theorems -/

/-- C1: Dispatch is total: every tool method of ClaraServer wraps the tool
group's Result<String, String> as a success envelope on the Ok arm and a
failure envelope on the Err arm, returns Ok(CallToolResult) unconditionally
in both cases, and never returns an Err(McpError): shown for the generic
wrapper shared by all tool methods and for the two cited methods
claude_code and send_message_to_channel at every possible handler outcome. -/
theorem C1_dispatch_total (t e : String) (sub : Except String ProcessOutput)
    (botToken : Option String) (channelId message : String)
    (resp : Except String HttpResponse) :
    wrapToolOutcome (.ok t) = .ok (CallToolResult.success [t]) ∧
    wrapToolOutcome (.error e) = .ok (CallToolResult.failure [e]) ∧
    ClaraServer.claude_code sub
      = .ok (toEnvelope (ClaudeCodeTools.execute_result sub)) ∧
    ClaraServer.send_message_to_channel botToken channelId message resp
      = .ok (toEnvelope (DiscordTools.send_message botToken channelId message resp)) := by
  refine ⟨rfl, rfl, ?_, ?_⟩
  · exact wrapToolOutcome_eq _
  · exact wrapToolOutcome_eq _

/-- C5: set_workdir with a path that does not exist returns the Err arm with
a message containing "Path does not exist", and the stored working directory
is unchanged. -/
theorem C5_set_workdir_missing_path (existingPaths : List String) (path : String)
    (stored : Option String) (h : path ∉ existingPaths) :
    ClaudeCodeTools.set_workdir existingPaths path stored
      = (.error ("Path does not exist: " ++ path), stored) ∧
    strContains ("Path does not exist: " ++ path) "Path does not exist" = true := by
  constructor
  · simp [ClaudeCodeTools.set_workdir, h]
  · have h0 : ("Path does not exist" ++ ": " : String) = "Path does not exist: " := by
      rfl
    have h1 : ("Path does not exist: " ++ path)
        = "Path does not exist" ++ (": " ++ path) := by
      rw [← str_append_assoc, h0]
    rw [h1]
    exact strContains_append_left "Path does not exist" (": " ++ path)

/-- C5 witness at a concrete missing path over the empty filesystem. -/
theorem C5_witness :
    ClaudeCodeTools.set_workdir [] "/nope" none
      = (.error ("Path does not exist: " ++ "/nope"), none) ∧
    strContains ("Path does not exist: " ++ "/nope") "Path does not exist" = true :=
  C5_set_workdir_missing_path [] "/nope" none (by simp)

/-- C8: in ClaudeCodeTools::execute a workdir argument takes precedence over
the stored working directory: the subprocess current directory is the
argument whenever it is supplied, and the stored value only when it is not. -/
theorem C8_workdir_precedence (task d : String) (stored maxTurnsEnv : Option String) :
    (ClaudeCodeTools.execute_command task (some d) stored maxTurnsEnv).currentDir
      = some d ∧
    (ClaudeCodeTools.execute_command task none stored maxTurnsEnv).currentDir
      = stored := by
  constructor <;> rfl

/-- C10: every Google operation fetches the OAuth token from the
token-broker endpoint first; a non-success token response makes the
operation return the Err arm with exactly the not-connected message, with
the token request as its only outbound call (no Google API call). -/
theorem C10_google_token_gate (base userId spreadsheetId range title startT endT
      fileId nowRfc : String) (calendarId query descr : Option String)
    (maxResults : Option Int) (valuesParse : Except String Json)
    (r : HttpResponse) (apiResp : Except String HttpResponse)
    (h : isSuccessStatus r.status = false) :
    GoogleTools.calendar_list_events base userId calendarId maxResults nowRfc
        (.ok r) apiResp
      = (.error "Google account not connected. Use google_connect first.",
         [HttpRequest.mk "GET" (tokenUrl base userId)]) ∧
    GoogleTools.calendar_create_event base userId title startT endT descr
        (.ok r) apiResp
      = (.error "Google account not connected. Use google_connect first.",
         [HttpRequest.mk "GET" (tokenUrl base userId)]) ∧
    GoogleTools.sheets_read base userId spreadsheetId range (.ok r) apiResp
      = (.error "Google account not connected. Use google_connect first.",
         [HttpRequest.mk "GET" (tokenUrl base userId)]) ∧
    GoogleTools.sheets_write base userId spreadsheetId range valuesParse
        (.ok r) apiResp
      = (.error "Google account not connected. Use google_connect first.",
         [HttpRequest.mk "GET" (tokenUrl base userId)]) ∧
    GoogleTools.drive_list base userId query (.ok r) apiResp
      = (.error "Google account not connected. Use google_connect first.",
         [HttpRequest.mk "GET" (tokenUrl base userId)]) ∧
    GoogleTools.drive_download base userId fileId (.ok r) apiResp
      = (.error "Google account not connected. Use google_connect first.",
         [HttpRequest.mk "GET" (tokenUrl base userId)]) := by
  have hg : GoogleTools.get_token base userId (.ok r)
      = (.error "Google account not connected. Use google_connect first.",
         [HttpRequest.mk "GET" (tokenUrl base userId)]) := by
    simp [GoogleTools.get_token, h]
  refine ⟨?_, ?_, ?_, ?_, ?_, ?_⟩ <;>
    simp [GoogleTools.calendar_list_events, GoogleTools.calendar_create_event,
      GoogleTools.sheets_read, GoogleTools.sheets_write, GoogleTools.drive_list,
      GoogleTools.drive_download, hg]

/-- C10 witness at a 401 token response. -/
theorem C10_witness :
    GoogleTools.calendar_list_events "http://localhost:8000" "u7" none none "T"
        (.ok (HttpResponse.mk 401 "unauthorized" (.error "bad json")))
        (.ok (HttpResponse.mk 200 "events" (.error "x")))
      = (.error "Google account not connected. Use google_connect first.",
         [HttpRequest.mk "GET" (tokenUrl "http://localhost:8000" "u7")]) ∧
    GoogleTools.drive_download "http://localhost:8000" "u7" "f1"
        (.ok (HttpResponse.mk 401 "unauthorized" (.error "bad json")))
        (.ok (HttpResponse.mk 200 "data" (.error "x")))
      = (.error "Google account not connected. Use google_connect first.",
         [HttpRequest.mk "GET" (tokenUrl "http://localhost:8000" "u7")]) := by
  have h := C10_google_token_gate "http://localhost:8000" "u7" "s" "r" "t" "st" "et"
    "f1" "T" none none none none (.error "x")
    (HttpResponse.mk 401 "unauthorized" (.error "bad json"))
    (.ok (HttpResponse.mk 200 "events" (.error "x"))) (by rfl)
  have h2 := C10_google_token_gate "http://localhost:8000" "u7" "s" "r" "t" "st" "et"
    "f1" "T" none none none none (.error "x")
    (HttpResponse.mk 401 "unauthorized" (.error "bad json"))
    (.ok (HttpResponse.mk 200 "data" (.error "x"))) (by rfl)
  exact ⟨h.1, h2.2.2.2.2.2⟩

/-- C2 counterexample: at a completed response with non-success status 500,
ors_list_notes returns the Ok arm (a fixed text), and with a valid token a
404 from the Google API still makes calendar_list_events, sheets_read,
drive_list and drive_download return the Ok arm carrying the body — none of
the five named operations returns the failure arm. -/
theorem C2_counterexample :
    OrsNotesTools.list (.ok (HttpResponse.mk 500 "server error" (.error "x")))
      = .ok "No active notes found." ∧
    (GoogleTools.calendar_list_events "http://localhost:8000" "u1" none none "T"
        (.ok (HttpResponse.mk 200 "tok"
          (.ok (Json.obj [("access_token", Json.str "tk")]))))
        (.ok (HttpResponse.mk 404 "not found" (.error "x")))).1
      = .ok "not found" ∧
    (GoogleTools.sheets_read "http://localhost:8000" "u1" "sheet1" "A1:B2"
        (.ok (HttpResponse.mk 200 "tok"
          (.ok (Json.obj [("access_token", Json.str "tk")]))))
        (.ok (HttpResponse.mk 404 "not found" (.error "x")))).1
      = .ok "not found" ∧
    (GoogleTools.drive_list "http://localhost:8000" "u1" none
        (.ok (HttpResponse.mk 200 "tok"
          (.ok (Json.obj [("access_token", Json.str "tk")]))))
        (.ok (HttpResponse.mk 404 "not found" (.error "x")))).1
      = .ok "not found" ∧
    (GoogleTools.drive_download "http://localhost:8000" "u1" "f1"
        (.ok (HttpResponse.mk 200 "tok"
          (.ok (Json.obj [("access_token", Json.str "tk")]))))
        (.ok (HttpResponse.mk 404 "not found" (.error "x")))).1
      = .ok "not found" := by
  refine ⟨rfl, rfl, rfl, rfl, rfl⟩

/-- C2 (amended): on a completed response with non-success status, the
status-checking operations (send_message, ors_add_note, ors_archive_note,
the sandbox operations, backup_now, calendar_create_event, sheets_write)
return the failure arm carrying the remote's status or body, while
ors_list_notes returns the Ok arm with a fixed text and calendar_list_events,
sheets_read, drive_list and drive_download return the Ok arm with the raw
body. -/
theorem C2_remote_rejection (r tokr : HttpResponse) (tj : Json)
    (h : isSuccessStatus r.status = false)
    (htok : isSuccessStatus tokr.status = true)
    (hjson : tokr.json = .ok tj)
    (hacc : tj.getStr "access_token" = some "tk")
    (botToken channelId message apiUrl base userId spreadsheetId range title
      startT endT fileId nowRfc dest : String) (vj : Json) :
    DiscordTools.send_message (some botToken) channelId message (.ok r)
      = .error ("Discord API error " ++ statusDisplay r.status ++ ": " ++ r.body) ∧
    OrsNotesTools.add (.ok r) = .error ("Failed to add note: " ++ r.body) ∧
    OrsNotesTools.archive (.ok r) = .error ("Failed to archive note: " ++ r.body) ∧
    SandboxTools.call_sandbox (some apiUrl) (.ok r)
      = .error ("Sandbox API error " ++ statusDisplay r.status ++ ": " ++ r.body) ∧
    (BackupTools.backup_now base (some dest) none (.ok r)).1
      = .error ("Backup failed: " ++ statusDisplay r.status ++ " - " ++ r.body) ∧
    (GoogleTools.calendar_create_event base userId title startT endT none
        (.ok tokr) (.ok r)).1
      = .error ("Failed to create event: " ++ r.body) ∧
    (GoogleTools.sheets_write base userId spreadsheetId range (.ok vj)
        (.ok tokr) (.ok r)).1
      = .error ("Failed to write: " ++ r.body) ∧
    OrsNotesTools.list (.ok r) = .ok "No active notes found." ∧
    (GoogleTools.calendar_list_events base userId none none nowRfc
        (.ok tokr) (.ok r)).1 = .ok r.body ∧
    (GoogleTools.sheets_read base userId spreadsheetId range
        (.ok tokr) (.ok r)).1 = .ok r.body ∧
    (GoogleTools.drive_list base userId none (.ok tokr) (.ok r)).1 = .ok r.body ∧
    (GoogleTools.drive_download base userId fileId (.ok tokr) (.ok r)).1
      = .ok r.body := by
  have hg : GoogleTools.get_token base userId (.ok tokr)
      = (.ok "tk", [HttpRequest.mk "GET" (tokenUrl base userId)]) := by
    simp [GoogleTools.get_token, htok, hjson, hacc]
  refine ⟨?_, ?_, ?_, ?_, ?_, ?_, ?_, ?_, ?_, ?_, ?_, ?_⟩ <;>
    simp [DiscordTools.send_message, OrsNotesTools.add, OrsNotesTools.archive,
      SandboxTools.call_sandbox, BackupTools.backup_now, OrsNotesTools.list,
      GoogleTools.calendar_create_event, GoogleTools.sheets_write,
      GoogleTools.calendar_list_events, GoogleTools.sheets_read,
      GoogleTools.drive_list, GoogleTools.drive_download, hg, h]

/-- C2 witness at a concrete 500 response and a valid concrete token
response. -/
theorem C2_witness :
    DiscordTools.send_message (some "bt") "c1" "hello"
        (.ok (HttpResponse.mk 500 "oops" (.error "x")))
      = .error ("Discord API error " ++ statusDisplay 500 ++ ": " ++ "oops") ∧
    OrsNotesTools.list (.ok (HttpResponse.mk 500 "oops" (.error "x")))
      = .ok "No active notes found." ∧
    (GoogleTools.drive_download "http://localhost:8000" "u1" "f1"
        (.ok (HttpResponse.mk 200 "tok"
          (.ok (Json.obj [("access_token", Json.str "tk")]))))
        (.ok (HttpResponse.mk 500 "oops" (.error "x")))).1
      = .ok (HttpResponse.mk 500 "oops" (.error "x")).body := by
  have h := C2_remote_rejection (HttpResponse.mk 500 "oops" (.error "x"))
    (HttpResponse.mk 200 "tok" (.ok (Json.obj [("access_token", Json.str "tk")])))
    (Json.obj [("access_token", Json.str "tk")]) (by rfl) (by rfl) (by rfl) (by rfl)
    "bt" "c1" "hello" "http://sb" "http://localhost:8000" "u1" "s" "r" "t" "st"
    "et" "f1" "T" "d" Json.null
  exact ⟨h.1, h.2.2.2.2.2.2.2.1, h.2.2.2.2.2.2.2.2.2.2.2⟩

/-- C3 counterexample: the Rust alphanumeric test is Unicode, so the Latin-1
letter at code point 0xE9 survives sanitization unchanged, and the output is
not drawn from the ASCII set [A-Za-z0-9._-] the claim names. -/
theorem C3_counterexample :
    sanitize_filename "é" = "é" ∧
    (sanitize_filename "é").data.all asciiFileChar = false := by
  constructor
  · rfl
  · rfl

/-- C3 (amended): sanitize_filename always yields characters that are
alphanumeric in the Rust (Unicode) sense or one of . - _, never starts with
a dot, and is deterministic. -/
theorem C3_sanitize_charset (s t : String) (hst : s = t) :
    (sanitize_filename s).data.all
      (fun c => rustIsAlphanumeric c || c == '.' || c == '-' || c == '_') = true ∧
    (sanitize_filename s).data.head? ≠ some '.' ∧
    sanitize_filename s = sanitize_filename t := by
  refine ⟨?_, ?_, by rw [hst]⟩
  · rw [List.all_eq_true]
    intro c hc
    have hc2 : c ∈ s.data.map (fun c =>
        if rustIsAlphanumeric c || c == '.' || c == '-' || c == '_' then c
        else '_') := mem_of_mem_dropWhile hc
    rcases List.mem_map.mp hc2 with ⟨a, _, ha⟩
    by_cases hcase : (rustIsAlphanumeric a || a == '.' || a == '-' || a == '_') = true
    · rw [if_pos hcase] at ha
      rw [← ha]
      exact hcase
    · rw [if_neg hcase] at ha
      rw [← ha]
      rfl
  · intro hh
    have := head_dropWhile_false
      (p := fun c => c == '.')
      (s.data.map (fun c =>
        if rustIsAlphanumeric c || c == '.' || c == '-' || c == '_' then c
        else '_')) '.' hh
    simp at this

/-- C3 witness at a concrete input with a leading dot, a space and letters. -/
theorem C3_witness :
    (sanitize_filename "..my file").data.all
      (fun c => rustIsAlphanumeric c || c == '.' || c == '-' || c == '_') = true ∧
    (sanitize_filename "..my file").data.head? ≠ some '.' ∧
    sanitize_filename "..my file" = sanitize_filename "..my file" :=
  C3_sanitize_charset "..my file" "..my file" rfl

/-- C4 counterexample: the backup module is never declared in tools/mod.rs
and no backup operation is registered on ClaraServer, so registry lookup of
backup_now fails. -/
theorem C4_counterexample :
    registryLookup "backup_now" = false ∧
    declaredToolModules.contains "backup" = false := by
  constructor
  · rfl
  · rfl

/-- C4 (amended): registry lookup of backup_now fails because the backup
tool group is never registered; the (unreachable) BackupTools::backup_now
implementation, invoked with no destination and no databases, issues exactly
one POST to base/api/backup/now with no query parameters, and maps the JSON
body with status success and backup_id abc to a success text containing
"Backup success" and "Backup ID: abc". -/
theorem C4_backup_now_behavior (base : String) :
    registryLookup "backup_now" = false ∧
    BackupTools.backup_now_query none none = "" ∧
    (BackupTools.backup_now base none none
        (.ok (HttpResponse.mk 200 ""
          (.ok (Json.obj [("status", Json.str "success"),
                          ("backup_id", Json.str "abc")]))))).2
      = [HttpRequest.mk "POST" (base ++ "/api/backup/now")] ∧
    (BackupTools.backup_now base none none
        (.ok (HttpResponse.mk 200 ""
          (.ok (Json.obj [("status", Json.str "success"),
                          ("backup_id", Json.str "abc")]))))).1
      = .ok "Backup success\nBackup ID: abc\n" ∧
    strContains "Backup success\nBackup ID: abc\n" "Backup success" = true ∧
    strContains "Backup success\nBackup ID: abc\n" "Backup ID: abc" = true := by
  refine ⟨rfl, rfl, ?_, ?_, by decide, by decide⟩
  · simp [BackupTools.backup_now, BackupTools.backup_now_query, isSuccessStatus,
      str_append_empty]
  · rfl

/-- C7 counterexample: ClaraServer::new allocates four HTTP clients (one per
HTTP-calling tool group), not one, and download_from_sandbox allocates one
more client on each call. -/
theorem C7_counterexample :
    (ClaraServer.newClients 0).2 = 4 ∧
    (ClaraServer.newClients 0).2 ≠ 1 ∧
    (LocalFilesTools.download_from_sandbox_clients 4).2 = 5 := by
  refine ⟨rfl, by decide, rfl⟩

/-- C7 (amended): each of the four HTTP-calling tool groups (discord,
sandbox, google, ors_notes) creates its own client once at startup — four
distinct instances rather than one shared one — and
download_from_sandbox (like upload_to_sandbox) constructs a fresh
SandboxTools, and hence a fresh client, on every call. -/
theorem C7_per_group_clients (n : Nat) :
    (ClaraServer.newClients n).2 = n + 4 ∧
    (ClaraServer.newClients n).1.discord ≠ (ClaraServer.newClients n).1.sandbox ∧
    (ClaraServer.newClients n).1.discord ≠ (ClaraServer.newClients n).1.google ∧
    (ClaraServer.newClients n).1.discord ≠ (ClaraServer.newClients n).1.orsNotes ∧
    (ClaraServer.newClients n).1.sandbox ≠ (ClaraServer.newClients n).1.google ∧
    (ClaraServer.newClients n).1.sandbox ≠ (ClaraServer.newClients n).1.orsNotes ∧
    (ClaraServer.newClients n).1.google ≠ (ClaraServer.newClients n).1.orsNotes ∧
    (LocalFilesTools.download_from_sandbox_clients n).2 = n + 1 := by
  have h2 : (ClaraServer.newClients n).2 = n + 1 + 1 + 1 + 1 := rfl
  have hd : (ClaraServer.newClients n).1.discord = HttpClient.mk n := rfl
  have hs : (ClaraServer.newClients n).1.sandbox = HttpClient.mk (n + 1) := rfl
  have hg : (ClaraServer.newClients n).1.google = HttpClient.mk (n + 1 + 1) := rfl
  have ho : (ClaraServer.newClients n).1.orsNotes = HttpClient.mk (n + 1 + 1 + 1) := rfl
  have hdl : (LocalFilesTools.download_from_sandbox_clients n).2 = n + 1 := rfl
  refine ⟨by rw [h2], ?_, ?_, ?_, ?_, ?_, ?_, hdl⟩ <;>
    · simp only [hd, hs, hg, ho, ne_eq, HttpClient.mk.injEq]
      try omega

/-- C9 counterexample: reading a missing file for a fresh user is not
filesystem-neutral — the per-user directory (and the base directory) are
created as a side effect by user_dir's create_dir_all. -/
theorem C9_counterexample :
    (LocalFilesTools.read ["store"] (FsState.mk [] []) "f" "u").2
      ≠ FsState.mk [] [] ∧
    (LocalFilesTools.read ["store"] (FsState.mk [] []) "f" "u").2
      = FsState.mk [["store"], ["store", "u"]] [] := by
  constructor
  · decide
  · rfl

/-- C9 (amended): when the sanitized per-user path has no file, read and
delete both return the Err arm with the message "File not found: " followed
by the sanitized filename, and leave the stored files unchanged (only the
empty per-user directory may be created as a side effect). -/
theorem C9_file_not_found (base : List String) (fs : FsState)
    (filename userId : String)
    (h : lookupFile fs.files
        (base ++ [sanitize_filename userId, sanitize_filename filename]) = none) :
    (LocalFilesTools.read base fs filename userId).1
      = .error ("File not found: " ++ sanitize_filename filename) ∧
    ((LocalFilesTools.read base fs filename userId).2).files = fs.files ∧
    (LocalFilesTools.delete base fs filename userId).1
      = .error ("File not found: " ++ sanitize_filename filename) ∧
    ((LocalFilesTools.delete base fs filename userId).2).files = fs.files := by
  have hfiles : (createDirAll fs (base ++ [sanitize_filename userId])).files
      = fs.files := rfl
  have hpath : base ++ [sanitize_filename userId] ++ [sanitize_filename filename]
      = base ++ [sanitize_filename userId, sanitize_filename filename] := by
    simp
  refine ⟨?_, ?_, ?_, ?_⟩ <;>
    simp [LocalFilesTools.read, LocalFilesTools.delete, user_dir, hfiles,
      hpath, h]

/-- C9 witness on the empty filesystem at a concrete filename and user. -/
theorem C9_witness :
    (LocalFilesTools.read ["store"] (FsState.mk [] []) "notes.txt" "u2").1
      = .error ("File not found: " ++ sanitize_filename "notes.txt") ∧
    ((LocalFilesTools.read ["store"] (FsState.mk [] []) "notes.txt" "u2").2).files
      = (FsState.mk [] []).files ∧
    (LocalFilesTools.delete ["store"] (FsState.mk [] []) "notes.txt" "u2").1
      = .error ("File not found: " ++ sanitize_filename "notes.txt") ∧
    ((LocalFilesTools.delete ["store"] (FsState.mk [] []) "notes.txt" "u2").2).files
      = (FsState.mk [] []).files :=
  C9_file_not_found ["store"] (FsState.mk [] []) "notes.txt" "u2" rfl

theorem createDirAll_files (fs : FsState) (p : List String) :
    (createDirAll fs p).files = fs.files := rfl

/-- C6 counterexample: sanitize_filename is not injective, so the distinct
user identifiers "a b" and "a_b" share a per-user directory: a file saved
under "a b" is read back, and visible, under "a_b". -/
theorem C6_counterexample :
    ("a b" ≠ "a_b") ∧
    (LocalFilesTools.read ["store"]
        (LocalFilesTools.save ["store"] (FsState.mk [] []) "x" "hi" "a b").2
        "x" "a_b").1 = .ok "hi" ∧
    fileVisible ["store"]
        (LocalFilesTools.save ["store"] (FsState.mk [] []) "x" "hi" "a b").2
        "a_b" "x" = true := by
  refine ⟨by decide, rfl, rfl⟩

/-- C6 (amended): per-user isolation holds between user identifiers whose
sanitized forms differ: saving a file under user A then neither changes what
user B reads at any filename, nor what user B's listing shows, nor user B's
file visibility. -/
theorem C6_user_isolation (base : List String) (fs : FsState)
    (userA userB f g c : String)
    (h : sanitize_filename userA ≠ sanitize_filename userB) :
    (LocalFilesTools.read base (LocalFilesTools.save base fs f c userA).2 g userB).1
      = (LocalFilesTools.read base fs g userB).1 ∧
    (LocalFilesTools.list base (LocalFilesTools.save base fs f c userA).2 userB).1
      = (LocalFilesTools.list base fs userB).1 ∧
    fileVisible base (LocalFilesTools.save base fs f c userA).2 userB g
      = fileVisible base fs userB g := by
  have hassoc : ∀ x y : String, (base ++ [x]) ++ [y] = base ++ [x, y] := by
    intro x y
    rw [List.append_assoc]
    rfl
  have hfs2 : (LocalFilesTools.save base fs f c userA).2.files
      = writeFileEntry fs.files
          (base ++ [sanitize_filename userA, sanitize_filename f]) c := by
    show writeFileEntry fs.files
        ((base ++ [sanitize_filename userA]) ++ [sanitize_filename f]) c = _
    rw [hassoc]
  have hpBne : (base ++ [sanitize_filename userB, sanitize_filename g])
      ≠ (base ++ [sanitize_filename userA, sanitize_filename f]) :=
    append_pair_ne base _ _ _ _ (Ne.symm h)
  have hlk2 : lookupFile (LocalFilesTools.save base fs f c userA).2.files
      (base ++ [sanitize_filename userB, sanitize_filename g])
      = lookupFile fs.files (base ++ [sanitize_filename userB, sanitize_filename g]) := by
    rw [hfs2]
    exact lookupFile_write_ne _ _ _ _ hpBne
  have hnone : entryNameIn (base ++ [sanitize_filename userB])
      (base ++ [sanitize_filename userA, sanitize_filename f]) = none :=
    entryNameIn_other_user base _ _ _ h
  have hfmap : ((LocalFilesTools.save base fs f c userA).2.files).filterMap
      (fun e => (entryNameIn (base ++ [sanitize_filename userB]) e.1).map
        (fun name => "- " ++ name ++ " (" ++ toString e.2.utf8ByteSize ++ " bytes)"))
      = fs.files.filterMap
      (fun e => (entryNameIn (base ++ [sanitize_filename userB]) e.1).map
        (fun name => "- " ++ name ++ " (" ++ toString e.2.utf8ByteSize ++ " bytes)")) := by
    rw [hfs2]
    unfold writeFileEntry
    rw [List.filterMap_cons]
    simp only [hnone, Option.map_none']
    exact filterMap_filter_of_none _ _ (fun e hge => by
      have he : e.1 = base ++ [sanitize_filename userA, sanitize_filename f] := by
        simpa using hge
      rw [he, hnone]
      rfl) fs.files
  refine ⟨?_, ?_, ?_⟩
  · simp only [LocalFilesTools.read, user_dir, createDirAll_files, hassoc, hlk2]
    rcases lookupFile fs.files
      (base ++ [sanitize_filename userB, sanitize_filename g]) with _ | ct <;> rfl
  · simp only [LocalFilesTools.list, user_dir, createDirAll_files, hfmap]
    split <;> rfl
  · unfold fileVisible
    rw [hlk2]

/-- C6 witness at two concrete users with distinct sanitized identifiers. -/
theorem C6_witness :
    (LocalFilesTools.read ["store"]
        (LocalFilesTools.save ["store"] (FsState.mk [] []) "x" "hi" "u1").2
        "x" "u2").1
      = (LocalFilesTools.read ["store"] (FsState.mk [] []) "x" "u2").1 ∧
    (LocalFilesTools.list ["store"]
        (LocalFilesTools.save ["store"] (FsState.mk [] []) "x" "hi" "u1").2 "u2").1
      = (LocalFilesTools.list ["store"] (FsState.mk [] []) "u2").1 ∧
    fileVisible ["store"]
        (LocalFilesTools.save ["store"] (FsState.mk [] []) "x" "hi" "u1").2 "u2" "x"
      = fileVisible ["store"] (FsState.mk [] []) "u2" "x" :=
  C6_user_isolation ["store"] (FsState.mk [] []) "u1" "u2" "x" "x" "hi" (by decide)

end ClaraMcp
